import Mathlib

/-!
Verification of the sensor CRUD handlers of `internal/handlers/sensor.handler.go`
(iot-server). The handlers are shallowly embedded: every external collaborator
call (validator, transaction begin, repository) is an input of the handler,
given as an `Except Err _` value recording whether that call would succeed and
with which result. Each handler returns the response (or propagated error)
together with the ordered list of repository calls it issued.
-/

/-- An error value flowing through a handler: either a `fiber.NewError` built by
the handler itself (status code and message), or an error surfaced by an
external collaborator (validator, transaction begin, repository), identified
abstractly by a tag. -/
inductive Err where
  | fiber (status : Nat) (message : String)
  | ext (tag : Nat)
deriving Repr, DecidableEq

/-- Modelled from the spec: `User: id, admin flag, used for authorization
comparisons` (entities package is not under src; fields are the ones the
handler reads: `IdUser`, `IsAdmin`). -/
structure User where
  IdUser : Nat
  IsAdmin : Bool
deriving Repr, DecidableEq

/-- Modelled from the spec: `Node: id, owning user reference` (entities package
is not under src; the handler reads `IdUser`). -/
structure Node where
  IdNode : Nat
  IdUser : Nat
deriving Repr, DecidableEq

/-- Modelled from the spec: `Hardware: id, type (must equal "sensor" for sensor
creation)` (entities package is not under src; the handler reads the type
field, here `Type'` since `Type` is reserved in Lean). -/
structure Hardware where
  IdHardware : Nat
  Type' : String
deriving Repr, DecidableEq

/-- Modelled from the spec: `Sensor: id, owning node reference, hardware
reference, metadata` (entities package is not under src; the handler never
reads individual sensor fields, it only passes the record around). -/
structure Sensor where
  IdSensor : Nat
  Name : String
  IdNode : Nat
  IdHardware : Nat
deriving Repr, DecidableEq

/-- Modelled from the spec: the `entities.SensorCreate` request body; the
handler reads `IdNode` and `IdHardware`. -/
structure SensorCreate where
  Name : String
  IdNode : Nat
  IdHardware : Nat
deriving Repr, DecidableEq

/-- Modelled from the spec: the `entities.SensorUpdate` patch body; the handler
passes it to the repository unread. -/
structure SensorUpdate where
  Name : String
deriving Repr, DecidableEq

/-- Modelled from the spec: `SensorChannel: time-series readings tied to a
sensor, ordered by timestamp for display`. `Time` is an integer timestamp;
Go's `t1.Before(t2)` is `t1 < t2`. -/
structure SensorChannel where
  Time : Int
  Value : Int
deriving Repr, DecidableEq

/-- Modelled from the spec: the `entities.SensorWithChannel` JSON payload of
GetById (a sensor together with its channels). -/
structure SensorWithChannel where
  Sensor : Sensor
  Channel : List SensorChannel
deriving Repr, DecidableEq

/-- The data a handler hands to `c.Render` (the `fiber.Map` contents that the
claims talk about, template by template). -/
inductive RenderData where
  | formTitle (title : String)
  | sensorList (title : String) (sensors : List Sensor)
  | sensorDetail (title : String) (sensor : Sensor) (channel : List SensorChannel)
  | sensorForm (title : String) (sensor : Sensor) (edit : Bool)
deriving Repr, DecidableEq

/-- A response body sent with an HTTP status. -/
inductive RespBody where
  | text (s : String)
  | jsonSensors (sensors : List Sensor)
  | jsonSensorWithChannel (v : SensorWithChannel)
deriving Repr, DecidableEq

/-- A successful handler response: either `c.Status(code)` with a body, or
`c.Render(template, data, layout)`. -/
inductive Response where
  | status (code : Nat) (body : RespBody)
  | render (template : String) (data : RenderData) (layout : String)
deriving Repr, DecidableEq

/-- A repository call issued by a handler, with the arguments that identify
it. -/
inductive RepoCall where
  | nodeGetById (id : Nat)
  | hardwareGetById (id : Nat)
  | sensorCreate (p : SensorCreate)
  | sensorGetAll (u : User)
  | sensorGetById (id : Nat)
  | getSensorChannel (id : Nat)
  | getIdUserWhoOwnSensorById (id : Nat)
  | sensorUpdate (s : Sensor) (p : SensorUpdate)
  | sensorDelete (id : Nat)
deriving Repr, DecidableEq

/-- Whether a repository call mutates persisted state. -/
def RepoCall.isMutation : RepoCall → Bool
  | .sensorCreate _ => true
  | .sensorUpdate _ _ => true
  | .sensorDelete _ => true
  | _ => false

/-- Embeds `strings.ToLower` as used on the hardware type: character-wise
lowercasing of the string. -/
def toLowerStr (s : String) : String := String.mk (s.data.map Char.toLower)

/-- The result of running one handler: the response or propagated error, and
the ordered list of repository calls issued inside the transaction. -/
abbrev HandlerResult := Except Err Response × List RepoCall

/-- Modelled from the spec: `helper.CommitOrRollback` (helper package is not
under src). Per the spec, each request runs `begin → operations →
commit-or-rollback deferred` and `the transaction rollback on any error is the
sole recovery mechanism`: the deferred helper commits the repository calls
exactly when the handler returns no error, and rolls all of them back
otherwise. `committedCalls` is the list of repository calls that take effect
on persisted state. -/
def committedCalls (r : HandlerResult) : List RepoCall :=
  match r.1 with
  | .ok _ => r.2
  | .error _ => []

/-- External-call outcomes visible to `SensorHandler.Create`. Each field is
the result the corresponding collaborator call would return (the repository
lookups are keyed by the ids the handler actually passes: `IdNode` and
`IdHardware` of the parsed body). -/
structure CreateEnv where
  parseBody : Except Err SensorCreate
  txBegin : Except Err Unit
  nodeGetById : Except Err Node
  hardwareGetById : Except Err Hardware
  getAuth : Except Err User
  repoCreate : Except Err Sensor

/-- External-call outcomes visible to `SensorHandler.GetAll`, plus the result
of the `c.Accepts("application/json", "text/html")` negotiation. -/
structure GetAllEnv where
  txBegin : Except Err Unit
  getAuth : Except Err User
  repoGetAll : Except Err (List Sensor)
  accepts : String

/-- External-call outcomes visible to `SensorHandler.GetById`, plus the result
of the Accept-header negotiation. -/
structure GetByIdEnv where
  parseId : Except Err Nat
  txBegin : Except Err Unit
  sensorGetById : Except Err Sensor
  getSensorChannel : Except Err (List SensorChannel)
  getIdUserWhoOwnSensorById : Except Err Nat
  getAuth : Except Err User
  accepts : String

/-- External-call outcomes visible to `SensorHandler.UpdateForm`. The Go
handler issues no authentication call, so no authentication field exists. -/
structure UpdateFormEnv where
  parseId : Except Err Nat
  txBegin : Except Err Unit
  sensorGetById : Except Err Sensor

/-- External-call outcomes visible to `SensorHandler.Update`. -/
structure UpdateEnv where
  parseId : Except Err Nat
  parseBody : Except Err SensorUpdate
  txBegin : Except Err Unit
  sensorGetById : Except Err Sensor
  getIdUserWhoOwnSensorById : Except Err Nat
  getAuth : Except Err User
  repoUpdate : Except Err Unit

/-- External-call outcomes visible to `SensorHandler.Delete`. -/
structure DeleteEnv where
  parseId : Except Err Nat
  txBegin : Except Err Unit
  getIdUserWhoOwnSensorById : Except Err Nat
  getAuth : Except Err User
  repoDelete : Except Err Unit

namespace SensorHandler

/-- Embeds `SensorHandler.CreateForm`: renders the static creation form. -/
def CreateForm : HandlerResult :=
  (.ok (.render "sensor_form" (.formTitle "Create Sensor") "layouts/main"), [])

/-- Embeds `SensorHandler.Create` (sensor.handler.go lines 41 to 86): parse
body, begin transaction, load node then hardware, reject a non-"sensor"
hardware type with 400, authenticate, reject another user's node with 403,
persist, answer 201. -/
def Create (env : CreateEnv) : HandlerResult :=
  match env.parseBody with
  | .error e => (.error e, [])
  | .ok bodyPayload =>
    match env.txBegin with
    | .error e => (.error e, [])
    | .ok _ =>
      match env.nodeGetById with
      | .error e => (.error e, [.nodeGetById bodyPayload.IdNode])
      | .ok node =>
        match env.hardwareGetById with
        | .error e =>
            (.error e, [.nodeGetById bodyPayload.IdNode,
              .hardwareGetById bodyPayload.IdHardware])
        | .ok hardware =>
          if toLowerStr hardware.Type' ≠ "sensor" then
            (.error (.fiber 400 "Hardware type not match, type should be sensor"),
              [.nodeGetById bodyPayload.IdNode,
                .hardwareGetById bodyPayload.IdHardware])
          else
            match env.getAuth with
            | .error e =>
                (.error e, [.nodeGetById bodyPayload.IdNode,
                  .hardwareGetById bodyPayload.IdHardware])
            | .ok currentUser =>
              if currentUser.IdUser ≠ node.IdUser then
                (.error (.fiber 403 "You can’t use other user’s node"),
                  [.nodeGetById bodyPayload.IdNode,
                    .hardwareGetById bodyPayload.IdHardware])
              else
                match env.repoCreate with
                | .error e =>
                    (.error e, [.nodeGetById bodyPayload.IdNode,
                      .hardwareGetById bodyPayload.IdHardware,
                      .sensorCreate bodyPayload])
                | .ok _ =>
                    (.ok (.status 201 (.text "Success add new sensor")),
                      [.nodeGetById bodyPayload.IdNode,
                        .hardwareGetById bodyPayload.IdHardware,
                        .sensorCreate bodyPayload])

/-- Embeds `SensorHandler.GetAll` (lines 88 to 116): begin transaction,
authenticate, fetch the user's sensors, render HTML when negotiation yields
text/html and 200 JSON otherwise. -/
def GetAll (env : GetAllEnv) : HandlerResult :=
  match env.txBegin with
  | .error e => (.error e, [])
  | .ok _ =>
    match env.getAuth with
    | .error e => (.error e, [])
    | .ok currentUser =>
      match env.repoGetAll with
      | .error e => (.error e, [.sensorGetAll currentUser])
      | .ok sensors =>
        if env.accepts = "text/html" then
          (.ok (.render "sensor" (.sensorList "Sensor" sensors) "layouts/main"),
            [.sensorGetAll currentUser])
        else
          (.ok (.status 200 (.jsonSensors sensors)), [.sensorGetAll currentUser])

/-- Embeds the closure passed to `sort.Slice` in GetById's HTML branch by an
insertion step: `channels[i].Time.Before(channels[j].Time)` decides where `c`
goes. -/
def insertByTime (c : SensorChannel) : List SensorChannel → List SensorChannel
  | [] => [c]
  | d :: ds => if c.Time < d.Time then c :: d :: ds else d :: insertByTime c ds

/-- Embeds `sort.Slice(channels, less)` of GetById's HTML branch: rearranges
the channel list by the strict `Time.Before` comparison (Go's sort contract —
a permutation of the input ordered by the less function). -/
def sortChannelsByTime : List SensorChannel → List SensorChannel
  | [] => []
  | c :: cs => insertByTime c (sortChannelsByTime cs)

/-- Embeds `SensorHandler.GetById` (lines 118 to 174): parse id, begin
transaction, fetch sensor, channels and owner id, authenticate, enforce
owner-or-admin, then render HTML (channels sorted by time) or answer 200 JSON
with the sensor and its channels. -/
def GetById (env : GetByIdEnv) : HandlerResult :=
  match env.parseId with
  | .error e => (.error e, [])
  | .ok id =>
    match env.txBegin with
    | .error e => (.error e, [])
    | .ok _ =>
      match env.sensorGetById with
      | .error e => (.error e, [.sensorGetById id])
      | .ok sensor =>
        match env.getSensorChannel with
        | .error e => (.error e, [.sensorGetById id, .getSensorChannel id])
        | .ok channels =>
          match env.getIdUserWhoOwnSensorById with
          | .error e =>
              (.error e, [.sensorGetById id, .getSensorChannel id,
                .getIdUserWhoOwnSensorById id])
          | .ok sensorOwnerId =>
            match env.getAuth with
            | .error e =>
                (.error e, [.sensorGetById id, .getSensorChannel id,
                  .getIdUserWhoOwnSensorById id])
            | .ok currentUser =>
              if sensorOwnerId ≠ currentUser.IdUser ∧ currentUser.IsAdmin = false then
                (.error (.fiber 403 "You can’t see another user’s sensor"),
                  [.sensorGetById id, .getSensorChannel id,
                    .getIdUserWhoOwnSensorById id])
              else
                if env.accepts = "text/html" then
                  (.ok (.render "sensor_detail"
                      (.sensorDetail "Sensor Detail" sensor (sortChannelsByTime channels))
                      "layouts/main"),
                    [.sensorGetById id, .getSensorChannel id,
                      .getIdUserWhoOwnSensorById id])
                else
                  (.ok (.status 200 (.jsonSensorWithChannel ⟨sensor, channels⟩)),
                    [.sensorGetById id, .getSensorChannel id,
                      .getIdUserWhoOwnSensorById id])

/-- Embeds `SensorHandler.UpdateForm` (lines 176 to 199): parse id, begin
transaction, fetch the sensor, render the pre-filled edit form. The Go code
issues no authentication or authorization step here. -/
def UpdateForm (env : UpdateFormEnv) : HandlerResult :=
  match env.parseId with
  | .error e => (.error e, [])
  | .ok id =>
    match env.txBegin with
    | .error e => (.error e, [])
    | .ok _ =>
      match env.sensorGetById with
      | .error e => (.error e, [.sensorGetById id])
      | .ok sensor =>
        (.ok (.render "sensor_form" (.sensorForm "Edit Sensor" sensor true)
            "layouts/main"),
          [.sensorGetById id])

/-- Embeds `SensorHandler.Update` (lines 201 to 245): parse id and body, begin
transaction, fetch sensor and owner id, authenticate, enforce owner-or-admin,
apply the patch, answer 200. -/
def Update (env : UpdateEnv) : HandlerResult :=
  match env.parseId with
  | .error e => (.error e, [])
  | .ok id =>
    match env.parseBody with
    | .error e => (.error e, [])
    | .ok bodyPayload =>
      match env.txBegin with
      | .error e => (.error e, [])
      | .ok _ =>
        match env.sensorGetById with
        | .error e => (.error e, [.sensorGetById id])
        | .ok sensor =>
          match env.getIdUserWhoOwnSensorById with
          | .error e =>
              (.error e, [.sensorGetById id, .getIdUserWhoOwnSensorById id])
          | .ok sensorOwnerId =>
            match env.getAuth with
            | .error e =>
                (.error e, [.sensorGetById id, .getIdUserWhoOwnSensorById id])
            | .ok currentUser =>
              if sensorOwnerId ≠ currentUser.IdUser ∧ currentUser.IsAdmin = false then
                (.error (.fiber 403 "You can’t edit another user’s sensor"),
                  [.sensorGetById id, .getIdUserWhoOwnSensorById id])
              else
                match env.repoUpdate with
                | .error e =>
                    (.error e, [.sensorGetById id, .getIdUserWhoOwnSensorById id,
                      .sensorUpdate sensor bodyPayload])
                | .ok _ =>
                    (.ok (.status 200 (.text "Success edit sensor")),
                      [.sensorGetById id, .getIdUserWhoOwnSensorById id,
                        .sensorUpdate sensor bodyPayload])

/-- Embeds `SensorHandler.Delete` (lines 247 to 280): parse id, begin
transaction, fetch owner id, authenticate, enforce owner-or-admin, delete,
answer 200 with a confirmation string. -/
def Delete (env : DeleteEnv) : HandlerResult :=
  match env.parseId with
  | .error e => (.error e, [])
  | .ok id =>
    match env.txBegin with
    | .error e => (.error e, [])
    | .ok _ =>
      match env.getIdUserWhoOwnSensorById with
      | .error e => (.error e, [.getIdUserWhoOwnSensorById id])
      | .ok sensorOwnerId =>
        match env.getAuth with
        | .error e => (.error e, [.getIdUserWhoOwnSensorById id])
        | .ok currentUser =>
          if sensorOwnerId ≠ currentUser.IdUser ∧ currentUser.IsAdmin = false then
            (.error (.fiber 403 "You can\x27t delete another user\x27s sensor"),
              [.getIdUserWhoOwnSensorById id])
          else
            match env.repoDelete with
            | .error e =>
                (.error e, [.getIdUserWhoOwnSensorById id, .sensorDelete id])
            | .ok _ =>
                (.ok (.status 200 (.text ("Success delete sensor, id: " ++ toString id))),
                  [.getIdUserWhoOwnSensorById id, .sensorDelete id])

end SensorHandler

theorem insertByTime_perm (c : SensorChannel) (l : List SensorChannel) :
    (SensorHandler.insertByTime c l).Perm (c :: l) := by
  induction l with
  | nil => simp [SensorHandler.insertByTime]
  | cons d ds ih =>
    simp only [SensorHandler.insertByTime]
    split
    · exact List.Perm.refl _
    · exact (ih.cons d).trans (List.Perm.swap c d ds)

theorem sortChannelsByTime_perm (l : List SensorChannel) :
    (SensorHandler.sortChannelsByTime l).Perm l := by
  induction l with
  | nil => simp [SensorHandler.sortChannelsByTime]
  | cons c cs ih =>
    exact (insertByTime_perm c _).trans (ih.cons c)

theorem insertByTime_pairwise {c : SensorChannel} {l : List SensorChannel}
    (h : l.Pairwise fun a b => a.Time ≤ b.Time) :
    (SensorHandler.insertByTime c l).Pairwise fun a b => a.Time ≤ b.Time := by
  induction l with
  | nil => simp [SensorHandler.insertByTime]
  | cons d ds ih =>
    rcases List.pairwise_cons.mp h with ⟨hd, hds⟩
    simp only [SensorHandler.insertByTime]
    split
    case isTrue hlt =>
      refine List.pairwise_cons.mpr ⟨?_, h⟩
      intro x hx
      rcases List.mem_cons.mp hx with rfl | hx
      · exact le_of_lt hlt
      · exact le_trans (le_of_lt hlt) (hd x hx)
    case isFalse hge =>
      refine List.pairwise_cons.mpr ⟨?_, ih hds⟩
      intro x hx
      rcases List.mem_cons.mp ((insertByTime_perm c ds).mem_iff.mp hx) with rfl | hx
      · exact le_of_not_lt hge
      · exact hd x hx

theorem sortChannelsByTime_pairwise (l : List SensorChannel) :
    (SensorHandler.sortChannelsByTime l).Pairwise fun a b => a.Time ≤ b.Time := by
  induction l with
  | nil => simp [SensorHandler.sortChannelsByTime]
  | cons c cs ih => exact insertByTime_pairwise ih

/-- C1: in GetById, Update and Delete, once the request reaches the
authorization check (all prior collaborator calls succeeded), a requester who
is neither the sensor's owner nor an admin gets the 403 error and no mutating
repository call is issued, while the owner or an admin passes the check and
the operation proceeds (GetById reaches a successful response, Update and
Delete issue their repository mutation). -/
theorem sensor_owner_or_admin_guard :
    (∀ (env : GetByIdEnv) (id : Nat) (sensor : Sensor)
        (channels : List SensorChannel) (ownerId : Nat) (u : User),
      env.parseId = .ok id → env.txBegin = .ok () →
      env.sensorGetById = .ok sensor → env.getSensorChannel = .ok channels →
      env.getIdUserWhoOwnSensorById = .ok ownerId → env.getAuth = .ok u →
      (ownerId ≠ u.IdUser ∧ u.IsAdmin = false →
        SensorHandler.GetById env =
          (.error (.fiber 403 "You can’t see another user’s sensor"),
            [.sensorGetById id, .getSensorChannel id,
              .getIdUserWhoOwnSensorById id])) ∧
      (ownerId = u.IdUser ∨ u.IsAdmin = true →
        ∃ r, (SensorHandler.GetById env).1 = .ok r)) ∧
    (∀ (env : UpdateEnv) (id : Nat) (body : SensorUpdate) (sensor : Sensor)
        (ownerId : Nat) (u : User),
      env.parseId = .ok id → env.parseBody = .ok body → env.txBegin = .ok () →
      env.sensorGetById = .ok sensor →
      env.getIdUserWhoOwnSensorById = .ok ownerId → env.getAuth = .ok u →
      (ownerId ≠ u.IdUser ∧ u.IsAdmin = false →
        SensorHandler.Update env =
          (.error (.fiber 403 "You can’t edit another user’s sensor"),
            [.sensorGetById id, .getIdUserWhoOwnSensorById id]) ∧
        ∀ s p, RepoCall.sensorUpdate s p ∉ (SensorHandler.Update env).2) ∧
      (ownerId = u.IdUser ∨ u.IsAdmin = true →
        RepoCall.sensorUpdate sensor body ∈ (SensorHandler.Update env).2)) ∧
    (∀ (env : DeleteEnv) (id : Nat) (ownerId : Nat) (u : User),
      env.parseId = .ok id → env.txBegin = .ok () →
      env.getIdUserWhoOwnSensorById = .ok ownerId → env.getAuth = .ok u →
      (ownerId ≠ u.IdUser ∧ u.IsAdmin = false →
        SensorHandler.Delete env =
          (.error (.fiber 403 "You can\x27t delete another user\x27s sensor"),
            [.getIdUserWhoOwnSensorById id]) ∧
        ∀ i, RepoCall.sensorDelete i ∉ (SensorHandler.Delete env).2) ∧
      (ownerId = u.IdUser ∨ u.IsAdmin = true →
        RepoCall.sensorDelete id ∈ (SensorHandler.Delete env).2)) := by
  refine ⟨?_, ?_, ?_⟩
  · intro env id sensor channels ownerId u h1 h2 h3 h4 h5 h6
    constructor
    · intro hden
      simp [SensorHandler.GetById, h1, h2, h3, h4, h5, h6, hden.1, hden.2]
    · intro hall
      rcases hall with hown | hadm
      · by_cases hacc : env.accepts = "text/html" <;>
          simp [SensorHandler.GetById, h1, h2, h3, h4, h5, h6, hown, hacc]
      · by_cases hacc : env.accepts = "text/html" <;>
          simp [SensorHandler.GetById, h1, h2, h3, h4, h5, h6, hadm, hacc]
  · intro env id body sensor ownerId u h1 h2 h3 h4 h5 h6
    constructor
    · intro hden
      constructor
      · simp [SensorHandler.Update, h1, h2, h3, h4, h5, h6, hden.1, hden.2]
      · intro s p
        simp [SensorHandler.Update, h1, h2, h3, h4, h5, h6, hden.1, hden.2]
    · intro hall
      rcases hall with hown | hadm
      · cases hrepo : env.repoUpdate <;>
          simp [SensorHandler.Update, h1, h2, h3, h4, h5, h6, hown, hrepo]
      · cases hrepo : env.repoUpdate <;>
          simp [SensorHandler.Update, h1, h2, h3, h4, h5, h6, hadm, hrepo]
  · intro env id ownerId u h1 h2 h3 h4
    constructor
    · intro hden
      constructor
      · simp [SensorHandler.Delete, h1, h2, h3, h4, hden.1, hden.2]
      · intro i
        simp [SensorHandler.Delete, h1, h2, h3, h4, hden.1, hden.2]
    · intro hall
      rcases hall with hown | hadm
      · cases hrepo : env.repoDelete <;>
          simp [SensorHandler.Delete, h1, h2, h3, h4, hown, hrepo]
      · cases hrepo : env.repoDelete <;>
          simp [SensorHandler.Delete, h1, h2, h3, h4, hadm, hrepo]

/-- Witness for C1 at concrete inputs: sensor 9 owned by user 1; non-admin
user 2 is denied with the 403 and no delete is issued, while owner user 1 gets
the delete issued. -/
theorem sensor_owner_or_admin_guard_witness :
    (SensorHandler.Delete ⟨.ok 9, .ok (), .ok 1, .ok ⟨2, false⟩, .ok ()⟩ =
        (.error (.fiber 403 "You can\x27t delete another user\x27s sensor"),
          [.getIdUserWhoOwnSensorById 9]) ∧
      ∀ i, RepoCall.sensorDelete i ∉
        (SensorHandler.Delete ⟨.ok 9, .ok (), .ok 1, .ok ⟨2, false⟩, .ok ()⟩).2) ∧
    RepoCall.sensorDelete 9 ∈
      (SensorHandler.Delete ⟨.ok 9, .ok (), .ok 1, .ok ⟨1, false⟩, .ok ()⟩).2 := by
  constructor
  · exact (sensor_owner_or_admin_guard.2.2 ⟨.ok 9, .ok (), .ok 1, .ok ⟨2, false⟩, .ok ()⟩
      9 1 ⟨2, false⟩ rfl rfl rfl rfl).1 (by decide)
  · exact (sensor_owner_or_admin_guard.2.2 ⟨.ok 9, .ok (), .ok 1, .ok ⟨1, false⟩, .ok ()⟩
      9 1 ⟨1, false⟩ rfl rfl rfl rfl).2 (by decide)

/-- C2: in Create, once the body parses and the node and hardware lookups
succeed, a lowercased hardware type other than "sensor" yields the 400 error;
with a matching type, a node owned by another user yields the 403 error; and
only when both checks pass is `repository.Create` invoked, answering 201 on
success. -/
theorem create_validates_type_and_ownership :
    ∀ (env : CreateEnv) (b : SensorCreate) (node : Node) (hw : Hardware),
      env.parseBody = .ok b → env.txBegin = .ok () →
      env.nodeGetById = .ok node → env.hardwareGetById = .ok hw →
      (toLowerStr hw.Type' ≠ "sensor" →
        SensorHandler.Create env =
          (.error (.fiber 400 "Hardware type not match, type should be sensor"),
            [.nodeGetById b.IdNode, .hardwareGetById b.IdHardware])) ∧
      (∀ u, env.getAuth = .ok u →
        (toLowerStr hw.Type' = "sensor" → u.IdUser ≠ node.IdUser →
          SensorHandler.Create env =
            (.error (.fiber 403 "You can’t use other user’s node"),
              [.nodeGetById b.IdNode, .hardwareGetById b.IdHardware])) ∧
        (toLowerStr hw.Type' = "sensor" → u.IdUser = node.IdUser →
          RepoCall.sensorCreate b ∈ (SensorHandler.Create env).2 ∧
          ∀ s, env.repoCreate = .ok s →
            (SensorHandler.Create env).1 =
              .ok (.status 201 (.text "Success add new sensor")))) := by
  intro env b node hw h1 h2 h3 h4
  constructor
  · intro htype
    simp [SensorHandler.Create, h1, h2, h3, h4, htype]
  · intro u hu
    constructor
    · intro htype hown
      simp [SensorHandler.Create, h1, h2, h3, h4, htype, hu, hown]
    · intro htype hown
      constructor
      · cases hrepo : env.repoCreate <;>
          simp [SensorHandler.Create, h1, h2, h3, h4, htype, hu, hown, hrepo]
      · intro s hs
        simp [SensorHandler.Create, h1, h2, h3, h4, htype, hu, hown, hs]

/-- Witness for C2 at concrete inputs: hardware typed "Node" is rejected with
400; with hardware typed "Sensor", user 2 creating under user 1's node is
rejected with 403; user 1 creating under their own node reaches
`repository.Create` and gets 201. -/
theorem create_validates_type_and_ownership_witness :
    SensorHandler.Create
        ⟨.ok ⟨"s", 5, 7⟩, .ok (), .ok ⟨5, 1⟩, .ok ⟨7, "Node"⟩, .ok ⟨2, false⟩,
          .ok ⟨3, "s", 5, 7⟩⟩ =
      (.error (.fiber 400 "Hardware type not match, type should be sensor"),
        [.nodeGetById 5, .hardwareGetById 7]) ∧
    SensorHandler.Create
        ⟨.ok ⟨"s", 5, 7⟩, .ok (), .ok ⟨5, 1⟩, .ok ⟨7, "Sensor"⟩, .ok ⟨2, false⟩,
          .ok ⟨3, "s", 5, 7⟩⟩ =
      (.error (.fiber 403 "You can’t use other user’s node"),
        [.nodeGetById 5, .hardwareGetById 7]) ∧
    (SensorHandler.Create
        ⟨.ok ⟨"s", 5, 7⟩, .ok (), .ok ⟨5, 1⟩, .ok ⟨7, "Sensor"⟩, .ok ⟨1, false⟩,
          .ok ⟨3, "s", 5, 7⟩⟩).1 =
      .ok (.status 201 (.text "Success add new sensor")) := by
  refine ⟨?_, ?_, ?_⟩
  · exact (create_validates_type_and_ownership
      ⟨.ok ⟨"s", 5, 7⟩, .ok (), .ok ⟨5, 1⟩, .ok ⟨7, "Node"⟩, .ok ⟨2, false⟩,
        .ok ⟨3, "s", 5, 7⟩⟩ ⟨"s", 5, 7⟩ ⟨5, 1⟩ ⟨7, "Node"⟩
      rfl rfl rfl rfl).1 (by decide)
  · exact ((create_validates_type_and_ownership
      ⟨.ok ⟨"s", 5, 7⟩, .ok (), .ok ⟨5, 1⟩, .ok ⟨7, "Sensor"⟩, .ok ⟨2, false⟩,
        .ok ⟨3, "s", 5, 7⟩⟩ ⟨"s", 5, 7⟩ ⟨5, 1⟩ ⟨7, "Sensor"⟩
      rfl rfl rfl rfl).2 ⟨2, false⟩ rfl).1 (by decide) (by decide)
  · exact (((create_validates_type_and_ownership
      ⟨.ok ⟨"s", 5, 7⟩, .ok (), .ok ⟨5, 1⟩, .ok ⟨7, "Sensor"⟩, .ok ⟨1, false⟩,
        .ok ⟨3, "s", 5, 7⟩⟩ ⟨"s", 5, 7⟩ ⟨5, 1⟩ ⟨7, "Sensor"⟩
      rfl rfl rfl rfl).2 ⟨1, false⟩ rfl).2 (by decide) rfl).2 ⟨3, "s", 5, 7⟩ rfl

/-- C8: Create has no admin override — with a matching hardware type, an
authenticated admin whose id differs from the node's owner still gets the 403
error and no create call is issued. -/
theorem create_no_admin_override :
    ∀ (env : CreateEnv) (b : SensorCreate) (node : Node) (hw : Hardware) (u : User),
      env.parseBody = .ok b → env.txBegin = .ok () →
      env.nodeGetById = .ok node → env.hardwareGetById = .ok hw →
      toLowerStr hw.Type' = "sensor" → env.getAuth = .ok u →
      u.IsAdmin = true → u.IdUser ≠ node.IdUser →
      SensorHandler.Create env =
        (.error (.fiber 403 "You can’t use other user’s node"),
          [.nodeGetById b.IdNode, .hardwareGetById b.IdHardware]) := by
  intro env b node hw u h1 h2 h3 h4 htype hu _hadm hown
  simp [SensorHandler.Create, h1, h2, h3, h4, htype, hu, hown]

/-- Witness for C8 at concrete inputs: an admin (user 2, IsAdmin true) creating
a sensor under user 1's node is still rejected with 403. -/
theorem create_no_admin_override_witness :
    SensorHandler.Create
        ⟨.ok ⟨"s", 5, 7⟩, .ok (), .ok ⟨5, 1⟩, .ok ⟨7, "sensor"⟩, .ok ⟨2, true⟩,
          .ok ⟨3, "s", 5, 7⟩⟩ =
      (.error (.fiber 403 "You can’t use other user’s node"),
        [.nodeGetById 5, .hardwareGetById 7]) :=
  create_no_admin_override
    ⟨.ok ⟨"s", 5, 7⟩, .ok (), .ok ⟨5, 1⟩, .ok ⟨7, "sensor"⟩, .ok ⟨2, true⟩,
      .ok ⟨3, "s", 5, 7⟩⟩ ⟨"s", 5, 7⟩ ⟨5, 1⟩ ⟨7, "sensor"⟩ ⟨2, true⟩
    rfl rfl rfl rfl rfl rfl rfl (by decide)

/-- C10: the hardware-type check precedes authentication — two Create runs
agreeing on the parsed body and on the node and hardware lookup results, with
a lowercased hardware type other than "sensor", produce identical results (the
same 400 error), whatever their authentication and create-call outcomes. -/
theorem create_type_check_before_auth :
    ∀ (env1 env2 : CreateEnv) (b : SensorCreate) (node : Node) (hw : Hardware),
      env1.parseBody = .ok b → env2.parseBody = .ok b →
      env1.txBegin = .ok () → env2.txBegin = .ok () →
      env1.nodeGetById = .ok node → env2.nodeGetById = .ok node →
      env1.hardwareGetById = .ok hw → env2.hardwareGetById = .ok hw →
      toLowerStr hw.Type' ≠ "sensor" →
      SensorHandler.Create env1 = SensorHandler.Create env2 ∧
      (SensorHandler.Create env1).1 =
        .error (.fiber 400 "Hardware type not match, type should be sensor") := by
  intro env1 env2 b node hw h1 h1' h2 h2' h3 h3' h4 h4' htype
  constructor
  · simp [SensorHandler.Create, h1, h1', h2, h2', h3, h3', h4, h4', htype]
  · simp [SensorHandler.Create, h1, h2, h3, h4, htype]

/-- Witness for C10 at concrete inputs: two runs differing only in the
authentication outcome (admin user 1 vs failed authentication) both yield the
same 400 error when the hardware type is "node". -/
theorem create_type_check_before_auth_witness :
    SensorHandler.Create
        ⟨.ok ⟨"s", 5, 7⟩, .ok (), .ok ⟨5, 1⟩, .ok ⟨7, "node"⟩, .ok ⟨1, true⟩,
          .ok ⟨3, "s", 5, 7⟩⟩ =
      SensorHandler.Create
        ⟨.ok ⟨"s", 5, 7⟩, .ok (), .ok ⟨5, 1⟩, .ok ⟨7, "node"⟩, .error (.ext 42),
          .error (.ext 43)⟩ ∧
    (SensorHandler.Create
        ⟨.ok ⟨"s", 5, 7⟩, .ok (), .ok ⟨5, 1⟩, .ok ⟨7, "node"⟩, .ok ⟨1, true⟩,
          .ok ⟨3, "s", 5, 7⟩⟩).1 =
      .error (.fiber 400 "Hardware type not match, type should be sensor") :=
  create_type_check_before_auth
    ⟨.ok ⟨"s", 5, 7⟩, .ok (), .ok ⟨5, 1⟩, .ok ⟨7, "node"⟩, .ok ⟨1, true⟩,
      .ok ⟨3, "s", 5, 7⟩⟩
    ⟨.ok ⟨"s", 5, 7⟩, .ok (), .ok ⟨5, 1⟩, .ok ⟨7, "node"⟩, .error (.ext 42),
      .error (.ext 43)⟩
    ⟨"s", 5, 7⟩ ⟨5, 1⟩ ⟨7, "node"⟩ rfl rfl rfl rfl rfl rfl rfl rfl (by decide)

/-- C3, evaluated at the failing input: UpdateForm for sensor 9 (owned by
user 1) renders the pre-filled edit form as soon as the id parses, the
transaction begins and the fetch succeeds — the embedded handler, like the Go
code, has no authentication or authorization step, so any requester (in
particular a non-owner, non-admin) receives the form, contrary to the claim. -/
theorem updateForm_renders_without_auth_check :
    SensorHandler.UpdateForm ⟨.ok 9, .ok (), .ok ⟨9, "owned-by-user-1", 5, 7⟩⟩ =
      (.ok (.render "sensor_form"
          (.sensorForm "Edit Sensor" ⟨9, "owned-by-user-1", 5, 7⟩ true)
          "layouts/main"),
        [.sensorGetById 9]) := rfl

/-- C4: in GetById's HTML branch, the channel list handed to the
`sensor_detail` template is the repository's list sorted by time: it is a
permutation of the repository's channels, and every adjacent pair is
non-decreasing in `Time`. -/
theorem getById_html_channels_sorted :
    ∀ (env : GetByIdEnv) (id : Nat) (sensor : Sensor)
        (channels : List SensorChannel) (ownerId : Nat) (u : User),
      env.parseId = .ok id → env.txBegin = .ok () →
      env.sensorGetById = .ok sensor → env.getSensorChannel = .ok channels →
      env.getIdUserWhoOwnSensorById = .ok ownerId → env.getAuth = .ok u →
      ¬(ownerId ≠ u.IdUser ∧ u.IsAdmin = false) →
      env.accepts = "text/html" →
      SensorHandler.GetById env =
        (.ok (.render "sensor_detail"
            (.sensorDetail "Sensor Detail" sensor
              (SensorHandler.sortChannelsByTime channels))
            "layouts/main"),
          [.sensorGetById id, .getSensorChannel id,
            .getIdUserWhoOwnSensorById id]) ∧
      (SensorHandler.sortChannelsByTime channels).Perm channels ∧
      (SensorHandler.sortChannelsByTime channels).Chain'
        (fun a b => a.Time ≤ b.Time) := by
  intro env id sensor channels ownerId u h1 h2 h3 h4 h5 h6 hauth hacc
  refine ⟨?_, sortChannelsByTime_perm channels,
    (sortChannelsByTime_pairwise channels).chain'⟩
  simp [SensorHandler.GetById, h1, h2, h3, h4, h5, h6, hacc, hauth]

/-- Witness for C4 at concrete inputs: owner user 1 asks for the HTML view of
sensor 9 whose channels arrive out of order (times 5, 2, 3); the rendered list
is sorted ascending and a permutation of the input. -/
theorem getById_html_channels_sorted_witness :
    SensorHandler.GetById
        ⟨.ok 9, .ok (), .ok ⟨9, "s", 5, 7⟩, .ok [⟨5, 50⟩, ⟨2, 20⟩, ⟨3, 30⟩],
          .ok 1, .ok ⟨1, false⟩, "text/html"⟩ =
      (.ok (.render "sensor_detail"
          (.sensorDetail "Sensor Detail" ⟨9, "s", 5, 7⟩
            (SensorHandler.sortChannelsByTime [⟨5, 50⟩, ⟨2, 20⟩, ⟨3, 30⟩]))
          "layouts/main"),
        [.sensorGetById 9, .getSensorChannel 9, .getIdUserWhoOwnSensorById 9]) ∧
    SensorHandler.sortChannelsByTime [⟨5, 50⟩, ⟨2, 20⟩, ⟨3, 30⟩] =
      [⟨2, 20⟩, ⟨3, 30⟩, ⟨5, 50⟩] := by
  constructor
  · exact (getById_html_channels_sorted
      ⟨.ok 9, .ok (), .ok ⟨9, "s", 5, 7⟩, .ok [⟨5, 50⟩, ⟨2, 20⟩, ⟨3, 30⟩],
        .ok 1, .ok ⟨1, false⟩, "text/html"⟩
      9 ⟨9, "s", 5, 7⟩ [⟨5, 50⟩, ⟨2, 20⟩, ⟨3, 30⟩] 1 ⟨1, false⟩
      rfl rfl rfl rfl rfl rfl (by decide) rfl).1
  · decide

/-- C5: GetAll and GetById pick the response format from the Accept-header
negotiation between application/json and text/html: on a successful,
authorized request, a text/html outcome renders the HTML page and any other
outcome answers 200 with the JSON body (the sensor list for GetAll, the
sensor with its channels for GetById). -/
theorem accept_negotiation_selects_format :
    (∀ (env : GetAllEnv) (u : User) (sensors : List Sensor),
      env.txBegin = .ok () → env.getAuth = .ok u →
      env.repoGetAll = .ok sensors →
      (env.accepts = "text/html" →
        SensorHandler.GetAll env =
          (.ok (.render "sensor" (.sensorList "Sensor" sensors) "layouts/main"),
            [.sensorGetAll u])) ∧
      (env.accepts ≠ "text/html" →
        SensorHandler.GetAll env =
          (.ok (.status 200 (.jsonSensors sensors)), [.sensorGetAll u]))) ∧
    (∀ (env : GetByIdEnv) (id : Nat) (sensor : Sensor)
        (channels : List SensorChannel) (ownerId : Nat) (u : User),
      env.parseId = .ok id → env.txBegin = .ok () →
      env.sensorGetById = .ok sensor → env.getSensorChannel = .ok channels →
      env.getIdUserWhoOwnSensorById = .ok ownerId → env.getAuth = .ok u →
      ¬(ownerId ≠ u.IdUser ∧ u.IsAdmin = false) →
      (env.accepts = "text/html" →
        SensorHandler.GetById env =
          (.ok (.render "sensor_detail"
              (.sensorDetail "Sensor Detail" sensor
                (SensorHandler.sortChannelsByTime channels))
              "layouts/main"),
            [.sensorGetById id, .getSensorChannel id,
              .getIdUserWhoOwnSensorById id])) ∧
      (env.accepts ≠ "text/html" →
        SensorHandler.GetById env =
          (.ok (.status 200 (.jsonSensorWithChannel ⟨sensor, channels⟩)),
            [.sensorGetById id, .getSensorChannel id,
              .getIdUserWhoOwnSensorById id]))) := by
  constructor
  · intro env u sensors h1 h2 h3
    constructor
    · intro hacc
      simp [SensorHandler.GetAll, h1, h2, h3, hacc]
    · intro hacc
      simp [SensorHandler.GetAll, h1, h2, h3, hacc]
  · intro env id sensor channels ownerId u h1 h2 h3 h4 h5 h6 hauth
    constructor
    · intro hacc
      simp [SensorHandler.GetById, h1, h2, h3, h4, h5, h6, hacc, hauth]
    · intro hacc
      simp [SensorHandler.GetById, h1, h2, h3, h4, h5, h6, hacc, hauth]

/-- Witness for C5 at concrete inputs: GetAll renders the HTML list when the
negotiation yields text/html and answers 200 JSON when it yields
application/json. -/
theorem accept_negotiation_selects_format_witness :
    SensorHandler.GetAll
        ⟨.ok (), .ok ⟨1, false⟩, .ok [⟨9, "s", 5, 7⟩], "text/html"⟩ =
      (.ok (.render "sensor" (.sensorList "Sensor" [⟨9, "s", 5, 7⟩])
          "layouts/main"),
        [.sensorGetAll ⟨1, false⟩]) ∧
    SensorHandler.GetAll
        ⟨.ok (), .ok ⟨1, false⟩, .ok [⟨9, "s", 5, 7⟩], "application/json"⟩ =
      (.ok (.status 200 (.jsonSensors [⟨9, "s", 5, 7⟩])),
        [.sensorGetAll ⟨1, false⟩]) := by
  constructor
  · exact (accept_negotiation_selects_format.1
      ⟨.ok (), .ok ⟨1, false⟩, .ok [⟨9, "s", 5, 7⟩], "text/html"⟩
      ⟨1, false⟩ [⟨9, "s", 5, 7⟩] rfl rfl rfl).1 rfl
  · exact (accept_negotiation_selects_format.1
      ⟨.ok (), .ok ⟨1, false⟩, .ok [⟨9, "s", 5, 7⟩], "application/json"⟩
      ⟨1, false⟩ [⟨9, "s", 5, 7⟩] rfl rfl rfl).2 (by decide)

/-- C9: in GetById's JSON branch the channels are sent exactly as the
repository produced them, in the same order — the time sort belongs only to
the HTML branch. -/
theorem getById_json_channels_unsorted :
    ∀ (env : GetByIdEnv) (id : Nat) (sensor : Sensor)
        (channels : List SensorChannel) (ownerId : Nat) (u : User),
      env.parseId = .ok id → env.txBegin = .ok () →
      env.sensorGetById = .ok sensor → env.getSensorChannel = .ok channels →
      env.getIdUserWhoOwnSensorById = .ok ownerId → env.getAuth = .ok u →
      ¬(ownerId ≠ u.IdUser ∧ u.IsAdmin = false) →
      env.accepts ≠ "text/html" →
      SensorHandler.GetById env =
        (.ok (.status 200 (.jsonSensorWithChannel ⟨sensor, channels⟩)),
          [.sensorGetById id, .getSensorChannel id,
            .getIdUserWhoOwnSensorById id]) := by
  intro env id sensor channels ownerId u h1 h2 h3 h4 h5 h6 hauth hacc
  simp [SensorHandler.GetById, h1, h2, h3, h4, h5, h6, hacc, hauth]

/-- Witness for C9 at concrete inputs: the JSON view of sensor 9 carries the
channel list with times 5, 2, 3 in exactly that (unsorted) repository
order. -/
theorem getById_json_channels_unsorted_witness :
    SensorHandler.GetById
        ⟨.ok 9, .ok (), .ok ⟨9, "s", 5, 7⟩, .ok [⟨5, 50⟩, ⟨2, 20⟩, ⟨3, 30⟩],
          .ok 1, .ok ⟨1, false⟩, "application/json"⟩ =
      (.ok (.status 200 (.jsonSensorWithChannel
          ⟨⟨9, "s", 5, 7⟩, [⟨5, 50⟩, ⟨2, 20⟩, ⟨3, 30⟩]⟩)),
        [.sensorGetById 9, .getSensorChannel 9, .getIdUserWhoOwnSensorById 9]) :=
  getById_json_channels_unsorted
    ⟨.ok 9, .ok (), .ok ⟨9, "s", 5, 7⟩, .ok [⟨5, 50⟩, ⟨2, 20⟩, ⟨3, 30⟩],
      .ok 1, .ok ⟨1, false⟩, "application/json"⟩
    9 ⟨9, "s", 5, 7⟩ [⟨5, 50⟩, ⟨2, 20⟩, ⟨3, 30⟩] 1 ⟨1, false⟩
    rfl rfl rfl rfl rfl rfl (by decide) (by decide)

/-- C6: in every handler operation, an error surfaced by body or id
validation, transaction begin, authentication extraction, or a repository
call is returned to the caller as the very same error value, and the call
list at that point contains exactly the repository calls already issued —
none after the failing step. -/
theorem errors_propagate_unchanged :
    (∀ (env : CreateEnv) (e : Err),
      (env.parseBody = .error e → SensorHandler.Create env = (.error e, [])) ∧
      (∀ b, env.parseBody = .ok b → env.txBegin = .error e →
        SensorHandler.Create env = (.error e, [])) ∧
      (∀ b, env.parseBody = .ok b → env.txBegin = .ok () →
        env.nodeGetById = .error e →
        SensorHandler.Create env = (.error e, [.nodeGetById b.IdNode])) ∧
      (∀ b node, env.parseBody = .ok b → env.txBegin = .ok () →
        env.nodeGetById = .ok node → env.hardwareGetById = .error e →
        SensorHandler.Create env =
          (.error e, [.nodeGetById b.IdNode, .hardwareGetById b.IdHardware])) ∧
      (∀ b node hw, env.parseBody = .ok b → env.txBegin = .ok () →
        env.nodeGetById = .ok node → env.hardwareGetById = .ok hw →
        toLowerStr hw.Type' = "sensor" → env.getAuth = .error e →
        SensorHandler.Create env =
          (.error e, [.nodeGetById b.IdNode, .hardwareGetById b.IdHardware])) ∧
      (∀ b node hw u, env.parseBody = .ok b → env.txBegin = .ok () →
        env.nodeGetById = .ok node → env.hardwareGetById = .ok hw →
        toLowerStr hw.Type' = "sensor" → env.getAuth = .ok u →
        u.IdUser = node.IdUser → env.repoCreate = .error e →
        SensorHandler.Create env =
          (.error e, [.nodeGetById b.IdNode, .hardwareGetById b.IdHardware,
            .sensorCreate b]))) ∧
    (∀ (env : GetAllEnv) (e : Err),
      (env.txBegin = .error e → SensorHandler.GetAll env = (.error e, [])) ∧
      (env.txBegin = .ok () → env.getAuth = .error e →
        SensorHandler.GetAll env = (.error e, [])) ∧
      (∀ u, env.txBegin = .ok () → env.getAuth = .ok u →
        env.repoGetAll = .error e →
        SensorHandler.GetAll env = (.error e, [.sensorGetAll u]))) ∧
    (∀ (env : GetByIdEnv) (e : Err),
      (env.parseId = .error e → SensorHandler.GetById env = (.error e, [])) ∧
      (∀ id, env.parseId = .ok id → env.txBegin = .error e →
        SensorHandler.GetById env = (.error e, [])) ∧
      (∀ id, env.parseId = .ok id → env.txBegin = .ok () →
        env.sensorGetById = .error e →
        SensorHandler.GetById env = (.error e, [.sensorGetById id])) ∧
      (∀ id s, env.parseId = .ok id → env.txBegin = .ok () →
        env.sensorGetById = .ok s → env.getSensorChannel = .error e →
        SensorHandler.GetById env =
          (.error e, [.sensorGetById id, .getSensorChannel id])) ∧
      (∀ id s ch, env.parseId = .ok id → env.txBegin = .ok () →
        env.sensorGetById = .ok s → env.getSensorChannel = .ok ch →
        env.getIdUserWhoOwnSensorById = .error e →
        SensorHandler.GetById env =
          (.error e, [.sensorGetById id, .getSensorChannel id,
            .getIdUserWhoOwnSensorById id])) ∧
      (∀ id s ch own, env.parseId = .ok id → env.txBegin = .ok () →
        env.sensorGetById = .ok s → env.getSensorChannel = .ok ch →
        env.getIdUserWhoOwnSensorById = .ok own → env.getAuth = .error e →
        SensorHandler.GetById env =
          (.error e, [.sensorGetById id, .getSensorChannel id,
            .getIdUserWhoOwnSensorById id]))) ∧
    (∀ (env : UpdateFormEnv) (e : Err),
      (env.parseId = .error e → SensorHandler.UpdateForm env = (.error e, [])) ∧
      (∀ id, env.parseId = .ok id → env.txBegin = .error e →
        SensorHandler.UpdateForm env = (.error e, [])) ∧
      (∀ id, env.parseId = .ok id → env.txBegin = .ok () →
        env.sensorGetById = .error e →
        SensorHandler.UpdateForm env = (.error e, [.sensorGetById id]))) ∧
    (∀ (env : UpdateEnv) (e : Err),
      (env.parseId = .error e → SensorHandler.Update env = (.error e, [])) ∧
      (∀ id, env.parseId = .ok id → env.parseBody = .error e →
        SensorHandler.Update env = (.error e, [])) ∧
      (∀ id b, env.parseId = .ok id → env.parseBody = .ok b →
        env.txBegin = .error e → SensorHandler.Update env = (.error e, [])) ∧
      (∀ id b, env.parseId = .ok id → env.parseBody = .ok b →
        env.txBegin = .ok () → env.sensorGetById = .error e →
        SensorHandler.Update env = (.error e, [.sensorGetById id])) ∧
      (∀ id b s, env.parseId = .ok id → env.parseBody = .ok b →
        env.txBegin = .ok () → env.sensorGetById = .ok s →
        env.getIdUserWhoOwnSensorById = .error e →
        SensorHandler.Update env =
          (.error e, [.sensorGetById id, .getIdUserWhoOwnSensorById id])) ∧
      (∀ id b s own, env.parseId = .ok id → env.parseBody = .ok b →
        env.txBegin = .ok () → env.sensorGetById = .ok s →
        env.getIdUserWhoOwnSensorById = .ok own → env.getAuth = .error e →
        SensorHandler.Update env =
          (.error e, [.sensorGetById id, .getIdUserWhoOwnSensorById id])) ∧
      (∀ id b s own u, env.parseId = .ok id → env.parseBody = .ok b →
        env.txBegin = .ok () → env.sensorGetById = .ok s →
        env.getIdUserWhoOwnSensorById = .ok own → env.getAuth = .ok u →
        ¬(own ≠ u.IdUser ∧ u.IsAdmin = false) → env.repoUpdate = .error e →
        SensorHandler.Update env =
          (.error e, [.sensorGetById id, .getIdUserWhoOwnSensorById id,
            .sensorUpdate s b]))) ∧
    (∀ (env : DeleteEnv) (e : Err),
      (env.parseId = .error e → SensorHandler.Delete env = (.error e, [])) ∧
      (∀ id, env.parseId = .ok id → env.txBegin = .error e →
        SensorHandler.Delete env = (.error e, [])) ∧
      (∀ id, env.parseId = .ok id → env.txBegin = .ok () →
        env.getIdUserWhoOwnSensorById = .error e →
        SensorHandler.Delete env =
          (.error e, [.getIdUserWhoOwnSensorById id])) ∧
      (∀ id own, env.parseId = .ok id → env.txBegin = .ok () →
        env.getIdUserWhoOwnSensorById = .ok own → env.getAuth = .error e →
        SensorHandler.Delete env =
          (.error e, [.getIdUserWhoOwnSensorById id])) ∧
      (∀ id own u, env.parseId = .ok id → env.txBegin = .ok () →
        env.getIdUserWhoOwnSensorById = .ok own → env.getAuth = .ok u →
        ¬(own ≠ u.IdUser ∧ u.IsAdmin = false) → env.repoDelete = .error e →
        SensorHandler.Delete env =
          (.error e, [.getIdUserWhoOwnSensorById id, .sensorDelete id]))) := by
  refine ⟨?_, ?_, ?_, ?_, ?_, ?_⟩
  · intro env e
    refine ⟨?_, ?_, ?_, ?_, ?_, ?_⟩ <;>
      · intros
        simp [SensorHandler.Create, *]
  · intro env e
    refine ⟨?_, ?_, ?_⟩ <;>
      · intros
        simp [SensorHandler.GetAll, *]
  · intro env e
    refine ⟨?_, ?_, ?_, ?_, ?_, ?_⟩ <;>
      · intros
        simp [SensorHandler.GetById, *]
  · intro env e
    refine ⟨?_, ?_, ?_⟩ <;>
      · intros
        simp [SensorHandler.UpdateForm, *]
  · intro env e
    refine ⟨?_, ?_, ?_, ?_, ?_, ?_, ?_⟩ <;>
      · intros
        simp [SensorHandler.Update, *]
  · intro env e
    refine ⟨?_, ?_, ?_, ?_, ?_⟩ <;>
      · intros
        simp [SensorHandler.Delete, *]

/-- Witness for C6 at concrete inputs: a Create whose body validation fails
with external error 7 returns exactly that error having issued no repository
call, and a Delete whose repository delete fails with external error 8
returns exactly that error with no call after the delete. -/
theorem errors_propagate_unchanged_witness :
    SensorHandler.Create
        ⟨.error (.ext 7), .ok (), .ok ⟨5, 1⟩, .ok ⟨7, "sensor"⟩,
          .ok ⟨1, false⟩, .ok ⟨3, "s", 5, 7⟩⟩ =
      (.error (.ext 7), []) ∧
    SensorHandler.Delete ⟨.ok 9, .ok (), .ok 1, .ok ⟨1, false⟩, .error (.ext 8)⟩ =
      (.error (.ext 8), [.getIdUserWhoOwnSensorById 9, .sensorDelete 9]) := by
  constructor
  · exact (errors_propagate_unchanged.1
      ⟨.error (.ext 7), .ok (), .ok ⟨5, 1⟩, .ok ⟨7, "sensor"⟩,
        .ok ⟨1, false⟩, .ok ⟨3, "s", 5, 7⟩⟩ (.ext 7)).1 rfl
  · exact (errors_propagate_unchanged.2.2.2.2.2
      ⟨.ok 9, .ok (), .ok 1, .ok ⟨1, false⟩, .error (.ext 8)⟩
      (.ext 8)).2.2.2.2 9 1 ⟨1, false⟩ rfl rfl rfl rfl (by decide) rfl

/-- C7: whenever Create, Update or Delete ends in an error — a propagated
collaborator error, the 400 hardware-type error or a 403 ownership error —
the deferred commit-or-rollback rolls the transaction back, so no repository
call of that request, in particular no mutation, takes effect on persisted
state. -/
theorem rollback_on_error_discards_mutations :
    (∀ (env : CreateEnv) (e : Err), (SensorHandler.Create env).1 = .error e →
      committedCalls (SensorHandler.Create env) = [] ∧
      (committedCalls (SensorHandler.Create env)).filter RepoCall.isMutation = []) ∧
    (∀ (env : UpdateEnv) (e : Err), (SensorHandler.Update env).1 = .error e →
      committedCalls (SensorHandler.Update env) = [] ∧
      (committedCalls (SensorHandler.Update env)).filter RepoCall.isMutation = []) ∧
    (∀ (env : DeleteEnv) (e : Err), (SensorHandler.Delete env).1 = .error e →
      committedCalls (SensorHandler.Delete env) = [] ∧
      (committedCalls (SensorHandler.Delete env)).filter RepoCall.isMutation = []) := by
  refine ⟨?_, ?_, ?_⟩ <;>
    · intro env e h
      constructor <;> simp [committedCalls, h]

/-- Witness for C7 at concrete inputs: a Create rejected with the 400
hardware-type error (hardware typed "Node") commits no repository call. -/
theorem rollback_on_error_discards_mutations_witness :
    committedCalls (SensorHandler.Create
        ⟨.ok ⟨"s", 5, 7⟩, .ok (), .ok ⟨5, 1⟩, .ok ⟨7, "Node"⟩, .ok ⟨1, false⟩,
          .ok ⟨3, "s", 5, 7⟩⟩) = [] :=
  (rollback_on_error_discards_mutations.1
    ⟨.ok ⟨"s", 5, 7⟩, .ok (), .ok ⟨5, 1⟩, .ok ⟨7, "Node"⟩, .ok ⟨1, false⟩,
      .ok ⟨3, "s", 5, 7⟩⟩
    (.fiber 400 "Hardware type not match, type should be sensor") rfl).1
